import Mathlib

/-!
Verification of the Stage_Opt rocket delta-v allocation optimizer.

This file shallowly embeds the numeric core of the repository:

* `payload_optimization.py` — mass ratios, payload fraction, objective,
  the GA repair operator `RepairDeltaV`, the GA fallback return, and
  the bounds/dispatch portion of `optimize_stages`;
* `src/optimization/solvers.py` — `enforce_stage_constraints`, the PSO
  penalty, and the per-stage result-assembly formulas of the SLSQP, GA,
  PSO and adaptive-GA solvers;
* `src/optimization/solvers/de_solver.py` — `project_to_feasible`;
* `src/reporting/latex.py` — the CSV stage-ratio formula.

Python floats are modelled as real numbers (`ℝ`) where the code applies
`exp`, and as rationals (`ℚ`) for the purely arithmetic repair/penalty
paths so that statements there are decidable.  The non-finite value
`float('inf')` produced by one error handler is modelled in `EReal`.
-/

namespace StageOpt

/-! ## Rational-valued embeddings (exact arithmetic, computable) -/

/-- Elementwise `np.clip(x, lo, hi)` on equal-length lists:
each entry is clamped into its `[lo, hi]` window. -/
def clipList (x lo hi : List ℚ) : List ℚ :=
  List.zipWith (fun xi p => min (max xi p.1) p.2) x (List.zip lo hi)

/-- One row of `RepairDeltaV._do` (`payload_optimization.py` lines 186-204).

If the row's sum is within `1e-6` of `TOTAL_DELTA_V` it is left
unchanged.  Otherwise the row is scaled by `TOTAL_DELTA_V / sum`,
clipped to the problem bounds, rescaled once more when the clipped sum
is still off by more than `1e-6`, and the result is written back
(`X[i] = x` at line 203 closes the first tolerance test's body). -/
def repairDeltaVRow (xl xu : List ℚ) (TOTAL_DELTA_V : ℚ) (x : List ℚ) : List ℚ :=
  let currentSum := x.sum
  if 1/1000000 < |currentSum - TOTAL_DELTA_V| then
    let x1 := x.map (fun v => v * (TOTAL_DELTA_V / currentSum))
    let x2 := clipList x1 xl xu
    let currentSum2 := x2.sum
    if 1/1000000 < |currentSum2 - TOTAL_DELTA_V| then
      x2.map (fun v => v * (TOTAL_DELTA_V / currentSum2))
    else
      x2
  else
    x

/-- The per-entry clipping loop of `project_to_feasible`
(`de_solver.py` lines 46-48): each entry is clamped into its
`(lower, upper)` bounds pair. -/
def clipToBounds (bounds : List (ℚ × ℚ)) (x : List ℚ) : List ℚ :=
  List.zipWith (fun xi p => min (max xi p.1) p.2) x bounds

/-- `DifferentialEvolutionSolver.project_to_feasible`
(`de_solver.py` lines 41-55): clip every entry to its bounds, then, if
the clipped sum differs from `1.0` by more than `1e-10`, divide the
whole vector by that sum.  Note the target of the normalisation is the
constant `1.0`, not `TOTAL_DELTA_V`. -/
def project_to_feasible (bounds : List (ℚ × ℚ)) (x : List ℚ) : List ℚ :=
  let xProj := clipToBounds bounds x
  let total := xProj.sum
  if 1/10000000000 < |total - 1| then
    xProj.map (fun v => v / total)
  else
    xProj

/-- Stage-constraint fractions read from
`config['optimization']['bounds']['stage_constraints']`. -/
structure StageConstraintCfg where
  first_stage_min : ℚ
  first_stage_max : ℚ
  other_stages_min : ℚ
deriving DecidableEq

/-- `enforce_stage_constraints` (`solvers.py` lines 392-428): the
continuous constraint penalty.  `|sum(dv) - TOTAL_DELTA_V|` plus, for
the first stage, `|dv_0 - min|` when below the minimum fraction of the
total or `|dv_0 - max|` when above the maximum fraction, and for every
other stage `|dv_i - min|` when below its minimum fraction. -/
def enforce_stage_constraints (dv : List ℚ) (TOTAL_DELTA_V : ℚ)
    (cfg : StageConstraintCfg) : ℚ :=
  let totalPenalty := |dv.sum - TOTAL_DELTA_V|
  match dv with
  | [] => totalPenalty
  | dv0 :: rest =>
      let minDv0 := cfg.first_stage_min * TOTAL_DELTA_V
      let maxDv0 := cfg.first_stage_max * TOTAL_DELTA_V
      let firstPenalty :=
        if dv0 < minDv0 then |dv0 - minDv0|
        else if maxDv0 < dv0 then |dv0 - maxDv0|
        else 0
      let otherPenalty :=
        (rest.map (fun dvi =>
          if dvi < cfg.other_stages_min * TOTAL_DELTA_V then
            |dvi - cfg.other_stages_min * TOTAL_DELTA_V|
          else 0)).sum
      totalPenalty + firstPenalty + otherPenalty

/-- The violation magnitude as the specification words it: the absolute
total-delta-v error plus the sum of the positive distances outside each
stage's allowed window (first stage `[min_fraction*T, max_fraction*T]`,
other stages at least `other_min*T`).  Written from the spec for the
refinement comparison with `enforce_stage_constraints`. -/
def specViolationMagnitude (dv : List ℚ) (TOTAL_DELTA_V : ℚ)
    (cfg : StageConstraintCfg) : ℚ :=
  |dv.sum - TOTAL_DELTA_V| +
    (match dv with
     | [] => 0
     | dv0 :: rest =>
         max (cfg.first_stage_min * TOTAL_DELTA_V - dv0) 0 +
         max (dv0 - cfg.first_stage_max * TOTAL_DELTA_V) 0 +
         (rest.map (fun dvi =>
           max (cfg.other_stages_min * TOTAL_DELTA_V - dvi) 0)).sum)

/-- The constraint penalty inside `solve_with_pso`
(`solvers.py` lines 701-713): `1e6 * |sum(dv) - TOTAL_DELTA_V|`, plus a
flat `1e6` for the first stage when it leaves the window
`[0.15*T, 0.8*T]`, and a flat `1e6` for every other stage below
`0.01*T`.  The stage terms are binary, not distance-scaled. -/
def psoPenalty (dv : List ℚ) (TOTAL_DELTA_V : ℚ) : ℚ :=
  let base := 1000000 * |dv.sum - TOTAL_DELTA_V|
  match dv with
  | [] => base
  | dv0 :: rest =>
      let firstPenalty :=
        if dv0 < 15/100 * TOTAL_DELTA_V ∨ 8/10 * TOTAL_DELTA_V < dv0 then
          (1000000 : ℚ)
        else 0
      let otherPenalty :=
        (rest.map (fun dvi =>
          if dvi < 1/100 * TOTAL_DELTA_V then (1000000 : ℚ) else 0)).sum
      base + firstPenalty + otherPenalty

/-- ASCII upper-casing of a method name, `method.upper()`: each
character is upper-cased in place. -/
def upperString (s : String) : String :=
  String.mk (s.data.map Char.toUpper)

/-- The bounds-derivation and method-dispatch portion of
`optimize_stages` (`payload_optimization.py` lines 471-497): the
initial guess is the even split `TOTAL_DELTA_V / n` per stage, every
stage gets the bounds pair
`(config min_dv, TOTAL_DELTA_V * max_dv_factor)`, and the only error
the function raises itself is `NotImplementedError` for a method name
other than SLSQP, GA or BASIN-HOPPING (case-insensitive).  No
feasibility check is performed on the derived bounds. -/
def optimize_stages_setup (n : ℕ) (TOTAL_DELTA_V max_dv_factor min_dv : ℚ)
    (method : String) : Except String (List ℚ × List (ℚ × ℚ)) :=
  let initial_guess := List.replicate n (TOTAL_DELTA_V / n)
  let bounds := List.replicate n (min_dv, TOTAL_DELTA_V * max_dv_factor)
  if upperString method = "SLSQP" ∨ upperString method = "GA" ∨
     upperString method = "BASIN-HOPPING" then
    Except.ok (initial_guess, bounds)
  else
    Except.error ("Optimization method " ++ method ++ " is not implemented")

/-! ## Real-valued embeddings (paths applying the exponential) -/

/-- The try-body of `calculate_mass_ratios`
(`payload_optimization.py` lines 60-68): for each stage,
`np.exp(dvi / (9.81 * ISP[i])) - EPSILON[i]`.  The exponent is
positive `dvi / (9.81 * ISP[i])` in this module. -/
noncomputable def calculate_mass_ratios (dv ISP EPSILON : List ℝ) : List ℝ :=
  (List.zip dv (List.zip ISP EPSILON)).map
    (fun p => Real.exp (p.1 / (9.81 * p.2.1)) - p.2.2)

/-- `calculate_payload_fraction` (`payload_optimization.py` lines
73-78): returns `0.0` when any mass ratio is `≤ 0`, otherwise
`np.prod(1.0 / mass_ratios)` — the product of the reciprocals of the
mass ratios. -/
noncomputable def calculate_payload_fraction (mass_ratios : List ℝ) : ℝ :=
  if ∃ r ∈ mass_ratios, r ≤ 0 then 0
  else (mass_ratios.map (fun r => 1 / r)).prod

set_option linter.unusedVariables false in
/-- The try-body of `payload_fraction_objective`
(`payload_optimization.py` lines 83-95): negated payload fraction plus
`100.0 * (0.1 - ratio)^2` for every mass ratio `≤ 0.1`.  The `G0`
argument is accepted but unused, exactly as in the source. -/
noncomputable def payload_fraction_objective (dv G0 ISP EPSILON : List ℝ) : ℝ :=
  let mass_ratios := calculate_mass_ratios dv ISP EPSILON
  let payload_fraction := calculate_payload_fraction mass_ratios
  let penalty := (mass_ratios.map (fun ratio =>
    if ratio ≤ 0.1 then 100 * (0.1 - ratio) ^ 2 else 0)).sum
  let result := -payload_fraction + penalty
  result

/-- The return step of `solve_with_ga`
(`payload_optimization.py` lines 274-278): when the pymoo result has
`res.X is None` or `res.success` false, the caller's `initial_guess`
is returned unchanged; otherwise `res.X` is returned. -/
def solve_with_ga_return (resX : Option (List ℝ)) (resSuccess : Bool)
    (initial_guess : List ℝ) : List ℝ :=
  match resX with
  | none => initial_guess
  | some x => if resSuccess then x else initial_guess

/-- The result dictionary built by `optimize_stages`
(`payload_optimization.py` lines 499-512). -/
structure OptimizeStagesResult where
  payload_fraction : ℝ
  dv : List ℝ
  mass_ratios : List ℝ
  error : ℝ

/-- `optimize_stages` on the GA path
(`payload_optimization.py` lines 471-512, method `GA`): the initial
guess is the even split; the GA's returned vector (or the fallback) is
the optimal allocation; payload fraction is recomputed as
`-payload_fraction_objective`, mass ratios and the constraint error
`|sum(dv) - TOTAL_DELTA_V|` are recomputed from the same vector. -/
noncomputable def optimize_stages_ga (n : ℕ) (G0 ISP EPSILON : List ℝ)
    (TOTAL_DELTA_V : ℝ) (resX : Option (List ℝ)) (resSuccess : Bool) :
    OptimizeStagesResult :=
  let initial_guess := List.replicate n (TOTAL_DELTA_V / n)
  let optimal_dv := solve_with_ga_return resX resSuccess initial_guess
  { payload_fraction := -payload_fraction_objective optimal_dv G0 ISP EPSILON
    dv := optimal_dv
    mass_ratios := calculate_mass_ratios optimal_dv ISP EPSILON
    error := |optimal_dv.sum - TOTAL_DELTA_V| }

/-- Per-stage `mass_ratio = np.exp(-dv / (G0 * isp))` as computed when
assembling solver results (`solvers.py` lines 143, 362, 784). -/
noncomputable def assemblyMassRatio (G0 dv isp : ℝ) : ℝ :=
  Real.exp (-dv / (G0 * isp))

/-- Per-stage `lambda_val = mass_ratio - eps` in the SLSQP, GA and PSO
result assembly (`solvers.py` lines 144, 363, 785). -/
noncomputable def assemblyLambda (G0 dv isp eps : ℝ) : ℝ :=
  assemblyMassRatio G0 dv isp - eps

/-- Per-stage `lambda_val = mr * (1 - EPSILON[i])` in the adaptive-GA
result assembly (`solvers.py` line 577). -/
noncomputable def adaptiveGALambda (mr eps : ℝ) : ℝ :=
  mr * (1 - eps)

/-- The stage mass-ratio written to the detailed CSV
(`latex.py` line 55): `np.exp(-dv / (9.81 * ISP)) - EPSILON`. -/
noncomputable def latexStageRatio (dv isp eps : ℝ) : ℝ :=
  Real.exp (-dv / (9.81 * isp)) - eps

/-- The mass-ratio formula exactly as the specification words it:
`exp(-dv_i / (G0 * ISP_i)) - epsilon_i` with `G0 = 9.81`.  Written
from the spec for the comparison with the code's formulas. -/
noncomputable def specMassRatio (dv isp eps : ℝ) : ℝ :=
  Real.exp (-dv / (9.81 * isp)) - eps

/-- One per-stage entry of a solver result record
(`solvers.py` result assembly). -/
structure StageInfo where
  stage : ℕ
  delta_v : ℝ
  Lambda : ℝ
  mass_ratio : ℝ

/-- The uniform result record returned by the solvers in
`solvers.py`. -/
structure SolverResult where
  success : Bool
  message : String
  payload_fraction : ℝ
  stages : List StageInfo
  n_iterations : ℕ
  n_function_evals : ℕ

/-- The raw scipy `minimize` result fields consumed by
`solve_with_slsqp` (`solvers.py` lines 125-163). -/
structure ScipyResult where
  x : List ℝ
  success : Bool
  message : String
  nit : ℕ
  nfev : ℕ

/-- The pymoo result fields consumed by `solve_with_ga`
(`solvers.py` lines 348-386).  `success` is present on the pymoo
result but never read by the assembly code. -/
structure PymooResult where
  X : List ℝ
  success : Bool
  n_gen : ℕ
  n_eval : ℕ

/-- The shared per-stage assembly loop of `solve_with_slsqp`,
`solve_with_ga` and `solve_with_pso` (`solvers.py` lines 142-152,
361-371, 783-793): index, delta-v, `Lambda` and `mass_ratio` per
stage. -/
noncomputable def assembleStages (G0 : ℝ) (xs ISP EPSILON : List ℝ) :
    List StageInfo :=
  (List.zip xs (List.zip ISP EPSILON)).enum.map
    (fun p =>
      { stage := p.1 + 1
        delta_v := p.2.1
        Lambda := assemblyLambda G0 p.2.1 p.2.2.1 p.2.2.2
        mass_ratio := assemblyMassRatio G0 p.2.1 p.2.2.1 })

/-- The record built by `solve_with_slsqp` (`solvers.py` lines
137-163): `success` and `message` come from the scipy result, the
stages and payload fraction are recomputed from `result.x` whether or
not the solver converged. -/
noncomputable def solve_with_slsqp_result (r : ScipyResult) (G0 : ℝ)
    (ISP EPSILON : List ℝ) : SolverResult :=
  let stages := assembleStages G0 r.x ISP EPSILON
  { success := r.success
    message := r.message
    payload_fraction := (stages.map (fun s => s.Lambda)).prod
    stages := stages
    n_iterations := r.nit
    n_function_evals := r.nfev }

/-- The record built by `solve_with_ga` (`solvers.py` lines 356-386):
stages come from `result.X`, but `success` is the literal `True` with
message "GA optimization completed"; the pymoo convergence flag is
never consulted. -/
noncomputable def solve_with_ga_result (r : PymooResult) (G0 : ℝ)
    (ISP EPSILON : List ℝ) : SolverResult :=
  let stages := assembleStages G0 r.X ISP EPSILON
  { success := true
    message := "GA optimization completed"
    payload_fraction := (stages.map (fun s => s.Lambda)).prod
    stages := stages
    n_iterations := r.n_gen
    n_function_evals := r.n_eval }

/-- The record built by `solve_with_pso` (`solvers.py` lines 778-804):
stages come from the final global-best particle, and `success` is the
literal `True` regardless of where the swarm ended up. -/
noncomputable def solve_with_pso_result (gbest : List ℝ) (G0 : ℝ)
    (ISP EPSILON : List ℝ) (n_iterations n_evals : ℕ) : SolverResult :=
  let stages := assembleStages G0 gbest ISP EPSILON
  { success := true
    message := "PSO optimization completed"
    payload_fraction := (stages.map (fun s => s.Lambda)).prod
    stages := stages
    n_iterations := n_iterations
    n_function_evals := n_evals }

/-! ## Error-handler values (`float('inf')` modelled in `EReal`) -/

/-- The except-branch of `calculate_mass_ratios`
(`payload_optimization.py` lines 69-71): on any error the function
returns `np.array([float('inf')] * len(dv))` — an array of positive
infinity, one entry per stage. -/
def calculate_mass_ratios_onError (n : ℕ) : List EReal :=
  List.replicate n ⊤

/-- The except-branch of `payload_fraction_objective`
(`payload_optimization.py` lines 96-98): on any error the function
returns the finite sentinel `1e6`. -/
noncomputable def payload_fraction_objective_onError : EReal :=
  ((1000000 : ℝ) : EReal)

/-- The per-individual try/except inside the GA problem's `_evaluate`
(`payload_optimization.py` lines 221-232): a member whose evaluation
raises gets objective `1e6` and constraint `1e6`; the others are
untouched. -/
noncomputable def ga_evaluate_entry (r : Except Unit (ℝ × ℝ)) : ℝ × ℝ :=
  match r with
  | Except.ok v => v
  | Except.error _ => (1000000, 1000000)

/-- A whole population is evaluated member-by-member with the
per-individual catch above; no member's failure aborts the others. -/
noncomputable def ga_evaluate_population (rs : List (Except Unit (ℝ × ℝ))) :
    List (ℝ × ℝ) :=
  rs.map ga_evaluate_entry

/-! ## Claim theorems -/

/-- C1 counterexample: at `dv = 981`, `ISP = 100`, `EPSILON = 0.1`,
`calculate_mass_ratios` returns `exp(1) - 0.1`, not the claimed
`exp(-1) - 0.1`: the module exponentiates `+dv/(9.81*ISP)`, not
`-dv/(9.81*ISP)`. -/
theorem claim_C1_counterexample :
    calculate_mass_ratios [981] [100] [1/10] ≠ [specMassRatio 981 100 (1/10)] := by
  have h1 : calculate_mass_ratios [981] [100] [1/10] = [Real.exp 1 - 1/10] := by
    simp only [calculate_mass_ratios, List.zip_cons_cons, List.zip_nil_right,
      List.map_cons, List.map_nil]
    norm_num
  have h2 : specMassRatio 981 100 (1/10) = Real.exp (-1) - 1/10 := by
    unfold specMassRatio
    norm_num
  rw [h1, h2]
  intro h
  have h3 : Real.exp 1 - 1/10 = Real.exp (-1) - 1/10 := by simpa using h
  have h4 : (1 : ℝ) = -1 := Real.exp_eq_exp.mp (by linarith)
  norm_num at h4

/-- C1 amended: the per-stage ratio in the SLSQP/GA/PSO result
assembly and the CSV stage ratio both equal
`exp(-dv/(G0*ISP)) - eps` (with `G0 = 9.81` in the CSV), exactly as
the spec words it; but `calculate_mass_ratios` in
`payload_optimization.py` returns `exp(+dv/(9.81*ISP)) - eps`, which
differs from the spec formula whenever `dv` and `ISP` are positive. -/
theorem claim_C1_theorem :
    ∀ dv isp eps G0 : ℝ,
      assemblyLambda G0 dv isp eps = Real.exp (-dv / (G0 * isp)) - eps ∧
      latexStageRatio dv isp eps = specMassRatio dv isp eps ∧
      assemblyLambda 9.81 dv isp eps = specMassRatio dv isp eps ∧
      calculate_mass_ratios [dv] [isp] [eps] =
        [Real.exp (dv / (9.81 * isp)) - eps] ∧
      (0 < dv → 0 < isp →
        calculate_mass_ratios [dv] [isp] [eps] ≠ [specMassRatio dv isp eps]) := by
  intro dv isp eps G0
  refine ⟨rfl, rfl, rfl, by simp [calculate_mass_ratios], ?_⟩
  intro hdv hisp h
  have h1 : Real.exp (dv / (9.81 * isp)) - eps
      = Real.exp (-dv / (9.81 * isp)) - eps := by
    simpa [calculate_mass_ratios, specMassRatio] using h
  have h2 : dv / (9.81 * isp) = -dv / (9.81 * isp) :=
    Real.exp_eq_exp.mp (by linarith)
  have hpos : (0 : ℝ) < 9.81 * isp := mul_pos (by norm_num) hisp
  have h3 : 0 < dv / (9.81 * isp) := div_pos hdv hpos
  rw [neg_div] at h2
  linarith

/-- C1 witness: the amended statement at `dv = 981`, `ISP = 100`,
`EPSILON = 0.1`, `G0 = 9.81`. -/
theorem claim_C1_witness :
    assemblyLambda 9.81 981 100 (1/10) =
        Real.exp (-981 / (9.81 * 100)) - 1/10 ∧
    latexStageRatio 981 100 (1/10) = specMassRatio 981 100 (1/10) ∧
    assemblyLambda 9.81 981 100 (1/10) = specMassRatio 981 100 (1/10) ∧
    calculate_mass_ratios [981] [100] [1/10] =
        [Real.exp (981 / (9.81 * 100)) - 1/10] ∧
    calculate_mass_ratios [981] [100] [1/10] ≠ [specMassRatio 981 100 (1/10)] := by
  obtain ⟨h1, h2, h3, h4, h5⟩ := claim_C1_theorem 981 100 (1/10) 9.81
  exact ⟨h1, h2, h3, h4, h5 (by norm_num) (by norm_num)⟩

/-- C2 counterexample: on the mass-ratio vector the code itself
produces for `dv = 0`, `ISP = 300`, `EPSILON = 0.1` (namely `[0.9]`),
`calculate_payload_fraction` returns `10/9` — the product of the
reciprocals — which is neither the product of the mass ratios (`0.9`)
nor inside `[0, 1]`. -/
theorem claim_C2_counterexample :
    calculate_payload_fraction (calculate_mass_ratios [0] [300] [1/10])
      = 10 / 9 ∧
    (10 : ℝ) / 9 ≠ (calculate_mass_ratios [0] [300] [1/10]).prod ∧
    ¬ (10 : ℝ) / 9 ≤ 1 := by
  have hmr : calculate_mass_ratios [0] [300] [1/10] = [(9 : ℝ)/10] := by
    simp only [calculate_mass_ratios, List.zip_cons_cons, List.zip_nil_right,
      List.map_cons, List.map_nil]
    norm_num [Real.exp_zero]
  refine ⟨?_, ?_, by norm_num⟩
  · rw [hmr]
    have hcond : ¬ ∃ r ∈ [(9 : ℝ)/10], r ≤ 0 := by norm_num
    unfold calculate_payload_fraction
    rw [if_neg hcond]
    norm_num
  · rw [hmr]
    norm_num

/-- C2 amended: `calculate_payload_fraction` returns the product of
the reciprocals of the mass ratios — a positive value, but not one
confined to `[0, 1]` — when all mass ratios are positive, and exactly
`0.0` (not an error) when any mass ratio is `≤ 0`. -/
theorem claim_C2_theorem :
    (∀ l : List ℝ, (∀ r ∈ l, 0 < r) →
        calculate_payload_fraction l = (l.map (fun r => 1 / r)).prod ∧
        0 < calculate_payload_fraction l) ∧
    (∀ l : List ℝ, (∃ r ∈ l, r ≤ 0) → calculate_payload_fraction l = 0) := by
  constructor
  · intro l h
    have hcond : ¬ ∃ r ∈ l, r ≤ 0 := by
      push_neg
      exact h
    have heq : calculate_payload_fraction l = (l.map (fun r => 1 / r)).prod := by
      unfold calculate_payload_fraction
      rw [if_neg hcond]
    refine ⟨heq, ?_⟩
    rw [heq]
    apply List.prod_pos
    intro a ha
    simp only [List.mem_map] at ha
    obtain ⟨r, hr, rfl⟩ := ha
    exact one_div_pos.mpr (h r hr)
  · intro l h
    unfold calculate_payload_fraction
    rw [if_pos h]

/-- C2 witness: the amended statement at the all-positive vector
`[1/2]` and the non-positive vector `[-1]`. -/
theorem claim_C2_witness :
    (calculate_payload_fraction [(1 : ℝ)/2] =
        (([(1 : ℝ)/2]).map (fun r => 1 / r)).prod ∧
      0 < calculate_payload_fraction [(1 : ℝ)/2]) ∧
    calculate_payload_fraction [(-1 : ℝ)] = 0 :=
  ⟨claim_C2_theorem.1 [(1 : ℝ)/2] (by norm_num),
   claim_C2_theorem.2 [(-1 : ℝ)] ⟨-1, by simp, by norm_num⟩⟩

/-- C3 counterexample: with `TOTAL_DELTA_V = 9000`, the DE solver's
`project_to_feasible` rescales the candidate `[1, 1, 1]` to sum `1.0`,
not 9000, so the repaired sum misses `TOTAL_DELTA_V` by far more than
`1e-6`. -/
theorem claim_C3_counterexample :
    ¬ |(project_to_feasible [(0, 10000), (0, 10000), (0, 10000)]
        [1, 1, 1]).sum - 9000| ≤ 1/1000000 := by
  norm_num [project_to_feasible, clipToBounds, min_def, max_def,
    List.sum_cons, List.sum_nil, abs_of_nonpos, abs_of_nonneg]

/-- C3 amended: a candidate repaired by the GA's `RepairDeltaV` does
sum to `TOTAL_DELTA_V` within `1e-6` — provided the scaled-and-clipped
row's sum is nonzero (a zero sum divides by zero in the source); but
the DE solver's `project_to_feasible` normalises the clipped
candidate's sum to `1.0` within `1e-10`, not to `TOTAL_DELTA_V`, so
the claim fails for the DE repair operator whenever
`TOTAL_DELTA_V ≠ 1`. -/
theorem claim_C3_theorem :
    (∀ (xl xu : List ℚ) (T : ℚ) (x : List ℚ),
        (clipList (x.map fun v => v * (T / x.sum)) xl xu).sum ≠ 0 →
        |(repairDeltaVRow xl xu T x).sum - T| ≤ 1/1000000) ∧
    (∀ (bounds : List (ℚ × ℚ)) (x : List ℚ),
        (clipToBounds bounds x).sum ≠ 0 →
        |(project_to_feasible bounds x).sum - 1| ≤ 1/10000000000) := by
  constructor
  · intro xl xu T x h
    simp only [repairDeltaVRow]
    by_cases h1 : 1/1000000 < |x.sum - T|
    · rw [if_pos h1]
      by_cases h2 : 1/1000000 <
          |(clipList (x.map fun v => v * (T / x.sum)) xl xu).sum - T|
      · rw [if_pos h2]
        have hT : ((clipList (x.map fun v => v * (T / x.sum)) xl xu).map
            (fun v => v *
              (T / (clipList (x.map fun v => v * (T / x.sum)) xl xu).sum))).sum
            = T := by
          rw [List.sum_map_mul_right]
          simp only [List.map_id']
          rw [mul_comm]
          exact div_mul_cancel₀ T h
        rw [hT]
        simp
      · rw [if_neg h2]
        exact le_of_not_lt h2
    · rw [if_neg h1]
      exact le_of_not_lt h1
  · intro bounds x h
    simp only [project_to_feasible]
    by_cases hc :
        1/10000000000 < |(clipToBounds bounds x).sum - 1|
    · rw [if_pos hc]
      have hsum : ((clipToBounds bounds x).map
          (fun v => v / (clipToBounds bounds x).sum)).sum
          = (clipToBounds bounds x).sum / (clipToBounds bounds x).sum := by
        simp only [div_eq_mul_inv, List.sum_map_mul_right, List.map_id']
      rw [hsum, div_self h]
      norm_num
    · rw [if_neg hc]
      exact le_of_not_lt hc

/-- C3 witness: `RepairDeltaV` repairs `[1, 1, 1]` to meet
`TOTAL_DELTA_V = 9000` within `1e-6`, and `project_to_feasible` sends
`[5, 5]` to a vector summing to `1.0` within `1e-10`. -/
theorem claim_C3_witness :
    |(repairDeltaVRow [0, 0, 0] [10000, 10000, 10000] 9000 [1, 1, 1]).sum
        - 9000| ≤ 1/1000000 ∧
    |(project_to_feasible [(0, 2), (0, 2)] [5, 5]).sum - 1|
      ≤ 1/10000000000 :=
  ⟨claim_C3_theorem.1 [0, 0, 0] [10000, 10000, 10000] 9000 [1, 1, 1]
     (by norm_num [clipList, min_def, max_def, List.sum_cons,
       List.sum_nil]),
   claim_C3_theorem.2 [(0, 2), (0, 2)] [5, 5]
     (by norm_num [clipToBounds, min_def, max_def, List.sum_cons,
       List.sum_nil])⟩

/-- Helper: the other-stage penalty term of
`enforce_stage_constraints` equals the positive distance below the
minimum. -/
lemma otherPenaltyEqMax (m dvi : ℚ) :
    (if dvi < m then |dvi - m| else 0) = max (m - dvi) 0 := by
  split_ifs with h
  · rw [abs_of_neg (by linarith), max_eq_left (by linarith)]
    ring
  · rw [max_eq_right (by linarith)]

/-- Helper: the first-stage penalty term of
`enforce_stage_constraints` equals the sum of the positive distances
outside the window, provided the window is non-degenerate. -/
lemma firstPenaltyEqMax (mn mx dvi : ℚ) (h : mn ≤ mx) :
    (if dvi < mn then |dvi - mn| else if mx < dvi then |dvi - mx| else 0)
      = max (mn - dvi) 0 + max (dvi - mx) 0 := by
  split_ifs with h1 h2
  · rw [abs_of_neg (by linarith), max_eq_left (by linarith),
      max_eq_right (by linarith)]
    ring
  · rw [abs_of_pos (by linarith), max_eq_right (by linarith),
      max_eq_left (by linarith)]
    ring
  · rw [max_eq_right (by linarith), max_eq_right (by linarith)]
    norm_num

/-- C4 counterexample: two candidates with different continuous
violation magnitudes (second stage short of its minimum by 0.005
versus 0.002 of the total) receive the same PSO penalty, because the
PSO path adds a flat `1e6` per out-of-window stage instead of the
distance: the PSO penalty does not use the identical underlying
violation magnitude. -/
theorem claim_C4_counterexample :
    enforce_stage_constraints [1/2, 5/1000, 495/1000] 1
        ⟨15/100, 8/10, 1/100⟩ ≠
      enforce_stage_constraints [1/2, 8/1000, 492/1000] 1
        ⟨15/100, 8/10, 1/100⟩ ∧
    psoPenalty [1/2, 5/1000, 495/1000] 1
      = psoPenalty [1/2, 8/1000, 492/1000] 1 := by
  constructor <;>
    norm_num [enforce_stage_constraints, psoPenalty, List.sum_cons,
      List.sum_nil, abs_of_nonpos, abs_of_nonneg]

/-- C4 amended: `enforce_stage_constraints` is the continuous penalty
the claim describes — `|sum(dv) - TOTAL_DELTA_V|` plus the positive
distances outside each stage's window — whenever the first-stage
window is non-degenerate; but the PSO solver's penalty path replaces
the per-stage distances with a flat `1e6` per violated stage, so it
does not use the identical underlying violation magnitude. -/
theorem claim_C4_theorem :
    (∀ (dv : List ℚ) (T : ℚ) (cfg : StageConstraintCfg),
        cfg.first_stage_min * T ≤ cfg.first_stage_max * T →
        enforce_stage_constraints dv T cfg = specViolationMagnitude dv T cfg) ∧
    (enforce_stage_constraints [1/2, 5/1000, 495/1000] 1
          ⟨15/100, 8/10, 1/100⟩ ≠
        enforce_stage_constraints [1/2, 8/1000, 492/1000] 1
          ⟨15/100, 8/10, 1/100⟩ ∧
      psoPenalty [1/2, 5/1000, 495/1000] 1
        = psoPenalty [1/2, 8/1000, 492/1000] 1) := by
  constructor
  · intro dv T cfg h
    cases dv with
    | nil => simp [enforce_stage_constraints, specViolationMagnitude]
    | cons dv0 rest =>
      simp only [enforce_stage_constraints, specViolationMagnitude]
      rw [firstPenaltyEqMax _ _ _ h]
      simp only [otherPenaltyEqMax]
      ring
  · constructor <;>
      norm_num [enforce_stage_constraints, psoPenalty, List.sum_cons,
        List.sum_nil, abs_of_nonpos, abs_of_nonneg]

/-- C4 witness: the continuous-penalty equation at a concrete
candidate and the standard constraint fractions. -/
theorem claim_C4_witness :
    enforce_stage_constraints [1, 2] 1 ⟨15/100, 8/10, 1/100⟩ =
      specViolationMagnitude [1, 2] 1 ⟨15/100, 8/10, 1/100⟩ :=
  claim_C4_theorem.1 [1, 2] 1 ⟨15/100, 8/10, 1/100⟩ (by norm_num)

/-- C6 counterexample: with `TOTAL_DELTA_V = 9000`,
`max_dv_factor = 0.8` and configured `min_dv = 8000`, every stage's
lower bound (8000) exceeds its upper bound (7200), yet
`optimize_stages` proceeds to dispatch the solver with those bounds
instead of failing fast with an infeasible-bounds error. -/
theorem claim_C6_counterexample :
    optimize_stages_setup 3 9000 (8/10) 8000 "SLSQP" =
      Except.ok (List.replicate 3 3000,
        List.replicate 3 ((8000 : ℚ), 7200)) ∧
    (9000 : ℚ) * (8/10) < 8000 := by
  constructor
  · simp only [optimize_stages_setup]
    rw [if_pos (by decide)]
    norm_num
  · norm_num

/-- C6 amended: `optimize_stages` performs no feasibility check on the
derived bounds: for every configuration — including ones with
`min_dv > max_dv` — a supported method name (case-insensitive SLSQP,
GA, BASIN-HOPPING) proceeds to solver dispatch with the even-split
initial guess and the derived bounds, and only an unrecognized method
name raises. -/
theorem claim_C6_theorem :
    ∀ (n : ℕ) (T f m : ℚ),
      optimize_stages_setup n T f m "SLSQP" =
        Except.ok (List.replicate n (T / n), List.replicate n (m, T * f)) ∧
      optimize_stages_setup n T f m "ga" =
        Except.ok (List.replicate n (T / n), List.replicate n (m, T * f)) ∧
      optimize_stages_setup n T f m "DE" =
        Except.error "Optimization method DE is not implemented" := by
  intro n T f m
  refine ⟨?_, ?_, ?_⟩
  · simp only [optimize_stages_setup]
    rw [if_pos (by decide)]
  · simp only [optimize_stages_setup]
    rw [if_pos (by decide)]
  · simp only [optimize_stages_setup]
    rw [if_neg (by decide)]
    rfl

/-- C5 counterexample: the error handler of `calculate_mass_ratios`
returns an array of positive infinity, not the finite sentinel `1e6`
the claim requires for all numeric-error paths. -/
theorem claim_C5_counterexample :
    calculate_mass_ratios_onError 1 = [(⊤ : EReal)] ∧
    (⊤ : EReal) ≠ ((1000000 : ℝ) : EReal) :=
  ⟨rfl, (EReal.coe_ne_top 1000000).symm⟩

/-- C5 amended: errors in `payload_fraction_objective` and in the GA
population evaluation are replaced by the finite sentinel `1e6` and
never abort the population (every member keeps a value); but the error
path of `calculate_mass_ratios` substitutes an array of `float('inf')`
entries — non-finite — rather than `1e6`. -/
theorem claim_C5_theorem :
    payload_fraction_objective_onError = ((1000000 : ℝ) : EReal) ∧
    payload_fraction_objective_onError ≠ (⊤ : EReal) ∧
    payload_fraction_objective_onError ≠ (⊥ : EReal) ∧
    (∀ n : ℕ, calculate_mass_ratios_onError n = List.replicate n (⊤ : EReal)) ∧
    (∀ rs : List (Except Unit (ℝ × ℝ)),
      (ga_evaluate_population rs).length = rs.length) ∧
    (∀ e : Unit, ga_evaluate_entry (Except.error e) = (1000000, 1000000)) :=
  ⟨rfl, EReal.coe_ne_top 1000000, EReal.coe_ne_bot 1000000,
   fun _ => rfl, fun rs => List.length_map rs ga_evaluate_entry, fun _ => rfl⟩

/-- C7 counterexample: a pymoo GA run that reports failure
(`success = False`) is still assembled into a record whose `success`
field is `True`, contradicting the claim that non-converged solves
yield `success = false` records. -/
theorem claim_C7_counterexample :
    (solve_with_ga_result ⟨[1000], false, 5, 100⟩ 9.81 [300] [1/10]).success
      = true ∧
    (solve_with_pso_result [1000] 9.81 [300] [1/10] 5 100).success = true :=
  ⟨rfl, rfl⟩

/-- C7 amended: a failed solve still builds its result record from the
returned candidate (the stage list is assembled from it regardless of
the convergence flag), and the SLSQP record's `success` field mirrors
the solver's reported flag; but the GA and PSO records always carry
`success = true`, whatever the solver reported. -/
theorem claim_C7_theorem :
    ∀ (r : ScipyResult) (rg : PymooResult) (gbest : List ℝ) (G0 : ℝ)
      (ISP EPSILON : List ℝ) (ni ne : ℕ),
      (solve_with_slsqp_result r G0 ISP EPSILON).success = r.success ∧
      (solve_with_slsqp_result r G0 ISP EPSILON).stages =
        assembleStages G0 r.x ISP EPSILON ∧
      (solve_with_ga_result rg G0 ISP EPSILON).success = true ∧
      (solve_with_ga_result rg G0 ISP EPSILON).stages =
        assembleStages G0 rg.X ISP EPSILON ∧
      (solve_with_pso_result gbest G0 ISP EPSILON ni ne).success = true ∧
      (solve_with_pso_result gbest G0 ISP EPSILON ni ne).stages =
        assembleStages G0 gbest ISP EPSILON :=
  fun _ _ _ _ _ _ _ _ => ⟨rfl, rfl, rfl, rfl, rfl, rfl⟩

/-- C8: the two stage-lambda conventions, `mass_ratio - eps` (SLSQP,
GA and PSO result assembly) and `mass_ratio * (1 - eps)` (adaptive-GA
result assembly), disagree on the same candidate for some positive
epsilon. -/
theorem claim_C8_theorem :
    ∃ G0 dv isp eps : ℝ, 0 < eps ∧
      assemblyLambda G0 dv isp eps ≠
        adaptiveGALambda (assemblyMassRatio G0 dv isp) eps := by
  refine ⟨9.81, 9.81, 1, 1/2, by norm_num, ?_⟩
  unfold assemblyLambda adaptiveGALambda assemblyMassRatio
  have h1 : (-9.81 : ℝ) / (9.81 * 1) = -1 := by norm_num
  rw [h1]
  intro h
  have h2 : Real.exp (-1) < 1 := Real.exp_lt_one_iff.mpr (by norm_num)
  nlinarith [h, h2]

/-- C9: the objective model is stateless — `payload_fraction_objective`
is a pure function of the candidate and the stage parameters, so two
evaluations on the same candidate with the same parameters are
identical. -/
theorem claim_C9_theorem :
    ∀ dv G0 ISP EPSILON : List ℝ,
      payload_fraction_objective dv G0 ISP EPSILON =
        payload_fraction_objective dv G0 ISP EPSILON :=
  fun _ _ _ _ => rfl

/-- C10: when the pymoo GA reports no solution (`res.X is None`) or no
success, `solve_with_ga` returns the caller's initial guess unchanged,
and `optimize_stages` then reports payload fraction, mass ratios and
constraint error computed from the even-split initial guess. -/
theorem claim_C10_theorem :
    ∀ (n : ℕ) (G0 ISP EPSILON : List ℝ) (T : ℝ)
      (resX : Option (List ℝ)) (resSuccess : Bool),
      resX = none ∨ resSuccess = false →
      optimize_stages_ga n G0 ISP EPSILON T resX resSuccess =
        { payload_fraction :=
            -payload_fraction_objective (List.replicate n (T / n)) G0 ISP EPSILON
          dv := List.replicate n (T / n)
          mass_ratios :=
            calculate_mass_ratios (List.replicate n (T / n)) ISP EPSILON
          error := |(List.replicate n (T / n)).sum - T| } := by
  intro n G0 ISP EPSILON T resX resSuccess h
  rcases h with h | h
  · subst h; rfl
  · subst h
    cases resX with
    | none => rfl
    | some x => rfl

/-- C10 witness: three stages, total delta-v 9000, GA returning no
solution vector: the reported allocation is the even split. -/
theorem claim_C10_witness :
    optimize_stages_ga 3 [9.81, 9.81, 9.81] [300, 300, 300]
        [1/10, 1/10, 1/10] 9000 none true =
      { payload_fraction :=
          -payload_fraction_objective (List.replicate 3 ((9000 : ℝ) / 3))
            [9.81, 9.81, 9.81] [300, 300, 300] [1/10, 1/10, 1/10]
        dv := List.replicate 3 ((9000 : ℝ) / 3)
        mass_ratios :=
          calculate_mass_ratios (List.replicate 3 ((9000 : ℝ) / 3))
            [300, 300, 300] [1/10, 1/10, 1/10]
        error := |(List.replicate 3 ((9000 : ℝ) / 3)).sum - 9000| } :=
  claim_C10_theorem 3 [9.81, 9.81, 9.81] [300, 300, 300]
    [1/10, 1/10, 1/10] 9000 none true (Or.inl rfl)

end StageOpt
